import Mathlib

/-!
Verification of the smart-kitchen-assistant core logic (app.py):
shelf (inventory) management, advisory flagging, image deduplication,
recipe-prompt construction and the static recipe catalog / weekly schedule.

Dates are modelled as integers (a day number); Python `datetime.date`
comparison is the usual linear order on days.  A shelf row (a Python dict
with keys Ingredient / Quantity / Expiry, where the Expiry key may be
absent) is the structure `ShelfItem` with an optional expiry.
-/

/-- A row of the session shelf: `{"Ingredient": ..., "Quantity": ..., "Expiry": ...}`.
The `Expiry` key is absent on the seeded pantry rows, hence an `Option`. -/
structure ShelfItem where
  ingredient : String
  quantity : Nat
  expiry : Option Int
  deriving Repr, DecidableEq

/-- The shelf seeded by `init_session_state` ("permanent pantry items");
the seeded rows carry no `Expiry` key. -/
def init_shelf : List ShelfItem :=
  [⟨("Salt"), 0, none⟩, ⟨("Pepper"), 0, none⟩,
   ⟨("Olive Oil"), 0, none⟩, ⟨("Garlic"), 0, none⟩]

/-- `init_session_state` starts on the Home page. -/
def init_page : String := "Home"

/-- `init_session_state` starts with an empty image gallery (images are
modelled by their encoded byte lists). -/
def init_images : List (List Nat) := []

/-- `init_session_state` starts with an empty identified-ingredients list. -/
def init_ingredients : List String := []

/-- `init_session_state` starts with an empty generated-recipes list. -/
def init_recipes : List String := []

/-- The "Add to shelf" handler of `identify_ingredients_page`: the first
row whose `Ingredient` equals the chosen name has its quantity increased
and its expiry overwritten; when no row matches, a fresh row is appended. -/
def addOrMerge : List ShelfItem → String → Nat → Int → List ShelfItem
  | [], n, q, e => [⟨n, q, some e⟩]
  | it :: rest, n, q, e =>
    if it.ingredient == n then
      { it with quantity := it.quantity + q, expiry := some e } :: rest
    else
      it :: addOrMerge rest n q e

/-- The post-generation consumption step of `generate_recipe_page`:
`[item for item in shelf if item["Ingredient"] not in selected_items]`. -/
def consume (shelf : List ShelfItem) (names : List String) : List ShelfItem :=
  shelf.filter (fun it => !(names.contains it.ingredient))

/-- The "Remove Ingredient" handler of `shelf_page`:
`[item for item in shelf if item["Ingredient"] != ingredient_to_remove]`. -/
def removeIngredient (shelf : List ShelfItem) (name : String) : List ShelfItem :=
  shelf.filter (fun it => it.ingredient != name)

/-- The "Clear Shelf" handler of `shelf_page`. -/
def clear_shelf : List ShelfItem := []

/-- The defaulting pass of `shelf_page`: a row without an `Expiry` key
gets `TODAY + 7` days; rows that already carry one are untouched. -/
def withDefaultExpiry (today : Int) (it : ShelfItem) : ShelfItem :=
  match it.expiry with
  | none => { it with expiry := some (today + 7) }
  | some _ => it

/-- The advisory conditions `shelf_page` can emit for one row. -/
inductive ShelfFlag where
  | LowQuantity
  | Expired
  | ExpiringSoon
  deriving Repr, DecidableEq

/-- The notification step of `shelf_page` for one (already defaulted) row:
a low-quantity warning when `Quantity < 2` (`LOW_QUANTITY_THRESHOLD`),
then either an expired error (`Expiry < TODAY`) or, failing that, an
expiring-soon warning (`Expiry <= TODAY + 2`). -/
def itemFlags (today : Int) (q : Nat) (e : Int) : List ShelfFlag :=
  (if q < 2 then [ShelfFlag.LowQuantity] else []) ++
    (if e < today then [ShelfFlag.Expired]
     else if e ≤ today + 2 then [ShelfFlag.ExpiringSoon]
     else [])

/-- Flags emitted by `shelf_page` for a row: the expiry is first defaulted,
then the thresholds are checked. -/
def shelfPageFlags (today : Int) (it : ShelfItem) : List ShelfFlag :=
  let d := withDefaultExpiry today it
  itemFlags today d.quantity (d.expiry.getD (today + 7))

/-- `image_hash`: the content hash of an image's encoded bytes.  The
byte encoding (PIL JPEG save) and the hash (hashlib md5) are external
library primitives, so both are parameters of the embedding; the source
composes them as `md5(image_to_bytes(image)).hexdigest()`. -/
def image_hash {Img H : Type} (md5 : List Nat → H) (image_to_bytes : Img → List Nat)
    (img : Img) : H :=
  md5 (image_to_bytes img)

/-- `is_duplicate(new_image, existing_images)`: hash the candidate once,
then scan the gallery and answer true exactly when some existing image
has the same hash. -/
def is_duplicate {Img H : Type} [DecidableEq H] (md5 : List Nat → H)
    (image_to_bytes : Img → List Nat) (new_image : Img) (existing_images : List Img) : Bool :=
  let new_hash := image_hash md5 image_to_bytes new_image
  existing_images.any (fun img => decide (image_hash md5 image_to_bytes img = new_hash))

/-- Python `str.lower`, applied to the diet preference in the prompt. -/
def str_lower (s : String) : String := String.mk (s.data.map Char.toLower)

/-- The dietary clause of the prompt: present exactly when the diet
preference is not `"None"`. -/
def diet_instruction (diet_preference : String) : String :=
  if diet_preference != "None" then
    "The recipe should be " ++ str_lower diet_preference ++ "."
  else ""

/-- The cuisine clause of the prompt: present exactly when the cuisine
preference is not `"Any"`. -/
def cuisine_instruction (cuisine_preference : String) : String :=
  if cuisine_preference != "Any" then
    "The recipe should be " ++ cuisine_preference ++ " cuisine."
  else ""

/-- The prompt built inside `generate_recipe`: a fixed template around the
comma-joined ingredient list and the two optional clauses. -/
def recipe_prompt (items : List String) (diet_preference cuisine_preference : String) : String :=
  "Create a recipe using these ingredients: " ++ String.intercalate (", ") items ++
    ". " ++ diet_instruction diet_preference ++ " " ++
    cuisine_instruction cuisine_preference ++
    " Provide the recipe name, ingredients with quantities, and step-by-step instructions."

/-- The fixed fallback text returned by `generate_recipe` when the
external call raises. -/
def fallback_recipe : String := "Unable to generate recipe. Please try again."

/-- `generate_recipe(items, diet_preference, cuisine_preference)`.  The
external text-generation call is a parameter returning either text or an
exception message.  On success the raw text is returned with no error
report; on failure the fixed fallback string is returned together with
the `st.error` report shown to the user.  The function is total: no
exception escapes. -/
def generate_recipe (call : String → Except String String) (items : List String)
    (diet_preference cuisine_preference : String) : String × List String :=
  match call (recipe_prompt items diet_preference cuisine_preference) with
  | Except.ok t => (t, [])
  | Except.error e =>
      (fallback_recipe, ["An error occurred while generating the recipe: " ++ e])

/-- `generate_multiple_recipes(items, diet, cuisine, num_recipes)`: call
the generator `num_recipes` times in order, collecting the results.  The
generator is modelled as a state-passing function (state `σ` stands for
the external world, so that every call is an independent invocation). -/
def generate_multiple_recipes {σ : Type} (gen : σ → String × σ) : Nat → σ → List String × σ
  | 0, s => ([], s)
  | Nat.succ k, s =>
    let p := gen s
    let rest := generate_multiple_recipes gen k p.2
    (p.1 :: rest.1, rest.2)

example : addOrMerge init_shelf ("Salt") 3 11 =
    [⟨("Salt"), 3, some 11⟩, ⟨("Pepper"), 0, none⟩,
     ⟨("Olive Oil"), 0, none⟩, ⟨("Garlic"), 0, none⟩] := by decide

example : consume init_shelf [("Salt"), ("Pepper")] =
    [⟨("Olive Oil"), 0, none⟩, ⟨("Garlic"), 0, none⟩] := by decide

example : shelfPageFlags 100 ⟨("Salt"), 1, some 99⟩ =
    [ShelfFlag.LowQuantity, ShelfFlag.Expired] := by decide

example : shelfPageFlags 100 ⟨("Salt"), 5, some 101⟩ = [ShelfFlag.ExpiringSoon] := by decide

example : shelfPageFlags 100 ⟨("Salt"), 5, none⟩ = [] := by decide

example : is_duplicate (H := List Nat) id id [1, 2] [[3], [1, 2]] = true := by decide

example : is_duplicate (H := List Nat) id id [1, 2] [[3], [4]] = false := by decide

example : recipe_prompt [("Rice"), ("Salt")] ("Vegan") ("Any") =
    "Create a recipe using these ingredients: Rice, Salt. The recipe should be vegan.  Provide the recipe name, ingredients with quantities, and step-by-step instructions." := by decide

example : generate_recipe (fun _ => Except.error ("boom")) [("Rice")] ("None") ("Any") =
    (fallback_recipe, ["An error occurred while generating the recipe: boom"]) := rfl

example : (generate_multiple_recipes (fun c : Nat => (toString c, c + 1)) 3 0).1 =
    [("0"), ("1"), ("2")] := by decide
/-- The record type of the static catalog: yields, prep/cook time,
ingredient list and instruction steps. -/
structure RecipeRecord where
  yields : String
  prepTime : String
  cookTime : String
  ingredients : List String
  instructions : List String
  deriving Repr, DecidableEq

/-- The static recipe catalog: the first dict literal followed by the
entries added with `recipes.update`, in insertion order. -/
def recipes : List (String × RecipeRecord) := [
  ("Spicy Tomato Rice with Crispy Bread Crumbs",
   { yields := "4 Servings",
     prepTime := "15 minutes",
     cookTime := "25 minutes",
     ingredients := [
       "1 cup Rice (Basmati or long grain)",
       "2 tablespoons Atta",
       "1 medium Onion, finely chopped",
       "2 medium Tomatoes, diced",
       "1 teaspoon Green Chilli Powder",
       "Salt, to taste",
       "1 teaspoon Sugar",
       "2 tablespoons + 1 tablespoon Olive Oil",
       "2 slices Bread, processed into breadcrumbs",
       "A pinch of Pepper (optional)"],
     instructions := [
       "Rinse the rice under cold water until the water runs clear.",
       "In a pot, combine rice with 2 cups of water and a pinch of salt. Bring to a boil, reduce heat to low, cover, and simmer for 15-20 minutes until rice is cooked.",
       "Heat 2 tablespoons of olive oil in a pan, add onions, and cook until soft and translucent.",
       "Stir in green chili powder and cook for 1 minute until fragrant.",
       "Add tomatoes, salt, and sugar. Cook for 5-7 minutes until tomatoes soften and release their juices.",
       "Whisk atta with 2-3 tablespoons of water to form a smooth slurry.",
       "Pour the slurry into the tomato mixture and cook for 2-3 minutes until the sauce thickens slightly.",
       "In a separate pan, heat the remaining olive oil and toast the breadcrumbs until golden and crispy. Season with salt and pepper.",
       "Fluff the rice and pour the tomato sauce over it. Top with crispy breadcrumbs."] }),
  ("Coconut Curry Rice with Toasted Almonds",
   { yields := "4 Servings",
     prepTime := "10 minutes",
     cookTime := "30 minutes",
     ingredients := [
       "1 cup Rice (Basmati or Jasmine)",
       "1 cup Coconut Milk",
       "1 cup Water",
       "1 tablespoon Ginger, minced",
       "2 cloves Garlic, minced",
       "1 teaspoon Curry Powder",
       "Salt, to taste",
       "2 tablespoons Olive Oil",
       "1/4 cup Almonds, sliced and toasted",
       "Fresh Cilantro, for garnish"],
     instructions := [
       "In a pot, combine rice, coconut milk, water, and a pinch of salt. Bring to a boil, then reduce heat, cover, and simmer for 15-20 minutes until the rice is cooked.",
       "Heat olive oil in a pan over medium heat. Add minced ginger and garlic, saut√© for 1-2 minutes until fragrant.",
       "Stir in curry powder and cook for another minute.",
       "Fluff the cooked rice and mix it into the ginger-garlic mixture. Season with salt if needed.",
       "Top with toasted almonds and garnish with cilantro."] }),
  ("Lemon Herb Quinoa with Roasted Vegetables",
   { yields := "4 Servings",
     prepTime := "15 minutes",
     cookTime := "30 minutes",
     ingredients := [
       "1 cup Quinoa, rinsed",
       "2 cups Water",
       "1 Zucchini, diced",
       "1 Red Bell Pepper, diced",
       "1 cup Cherry Tomatoes, halved",
       "2 tablespoons Lemon Juice",
       "3 tablespoons Olive Oil",
       "1/4 cup Fresh Parsley, chopped",
       "Salt and Pepper, to taste"],
     instructions := [
       "In a pot, bring quinoa and water to a boil. Reduce heat, cover, and simmer for 15 minutes until quinoa is tender.",
       "Preheat oven to 400¬∞F (200¬∞C). Toss zucchini, bell pepper, and cherry tomatoes with 2 tablespoons olive oil. Spread on a baking sheet and roast for 20 minutes until tender.",
       "Fluff quinoa with a fork and toss with roasted vegetables, lemon juice, remaining olive oil, parsley, salt, and pepper."] }),
  ("Garlicky Spinach and Mushroom Risotto",
   { yields := "4 Servings",
     prepTime := "10 minutes",
     cookTime := "40 minutes",
     ingredients := [
       "1 cup Arborio Rice",
       "4 cups Vegetable Broth",
       "2 tablespoons Olive Oil",
       "1 small Onion, diced",
       "3 cloves Garlic, minced",
       "1 cup Mushrooms, sliced",
       "2 cups Fresh Spinach",
       "1/4 cup Parmesan Cheese, grated",
       "Salt and Pepper, to taste"],
     instructions := [
       "In a pot, warm the vegetable broth over low heat.",
       "In a large pan, heat olive oil over medium heat. Add onions and cook until softened.",
       "Add garlic and mushrooms, cook for another 5-7 minutes until mushrooms are browned.",
       "Stir in the Arborio rice and cook for 1-2 minutes to toast the rice.",
       "Add 1 cup of broth to the rice, stirring constantly until absorbed. Continue adding broth 1/2 cup at a time until the rice is creamy and fully cooked (about 18-20 minutes).",
       "Stir in spinach and Parmesan cheese. Season with salt and pepper."] }),
  ("Creamy Broccoli and Cheddar Rice Bake",
   { yields := "4 Servings",
     prepTime := "10 minutes",
     cookTime := "40 minutes",
     ingredients := [
       "1 cup Rice (Basmati or long grain)",
       "2 cups Broccoli florets",
       "1 cup Cheddar cheese, grated",
       "1 cup Milk",
       "2 tablespoons Butter",
       "2 tablespoons All-purpose flour",
       "1/2 teaspoon Garlic powder",
       "Salt and Pepper, to taste",
       "1/4 cup Bread crumbs for topping"],
     instructions := [
       "Preheat the oven to 375¬∞F (190¬∞C).",
       "Cook the rice according to package instructions and set aside.",
       "Steam the broccoli florets until tender, about 5-7 minutes.",
       "In a saucepan, melt the butter over medium heat. Stir in the flour and cook for 1-2 minutes until lightly browned.",
       "Slowly whisk in the milk and cook until the sauce thickens, about 3-5 minutes.",
       "Remove from heat and stir in the grated Cheddar cheese, garlic powder, salt, and pepper.",
       "Combine the cooked rice, steamed broccoli, and cheese sauce. Transfer to a greased baking dish.",
       "Sprinkle the top with bread crumbs and bake for 15-20 minutes, until the topping is golden and crispy."] }),
  ("Turmeric Rice with Grilled Tofu",
   { yields := "4 Servings",
     prepTime := "15 minutes",
     cookTime := "30 minutes",
     ingredients := [
       "1 cup Basmati Rice",
       "2 cups Water",
       "1 teaspoon Turmeric powder",
       "1/2 teaspoon Cumin seeds",
       "2 tablespoons Olive Oil",
       "1 block Tofu, pressed and cubed",
       "1 tablespoon Soy Sauce",
       "1 teaspoon Paprika",
       "1 tablespoon Lemon Juice",
       "Salt and Pepper, to taste",
       "Fresh Cilantro, for garnish"],
     instructions := [
       "Rinse the basmati rice until the water runs clear. In a pot, bring 2 cups of water to a boil.",
       "Add the turmeric powder and a pinch of salt to the water, then stir in the rice. Reduce heat to low, cover, and simmer for 15-20 minutes until the rice is fully cooked.",
       "While the rice is cooking, prepare the tofu by tossing it in soy sauce, paprika, lemon juice, salt, and pepper.",
       "Heat olive oil in a pan over medium heat and add cumin seeds. Once they start to sizzle, add the tofu cubes and cook for 7-10 minutes, turning occasionally, until crispy and golden brown on all sides.",
       "Fluff the cooked rice and mix in the grilled tofu cubes. Garnish with fresh cilantro and serve."] }),
  ("Coconut Rice with Mango Salsa",
   { yields := "4 Servings",
     prepTime := "10 minutes",
     cookTime := "20 minutes",
     ingredients := [
       "1 cup Rice (Jasmine or Basmati)",
       "1 can (13.5 oz) Coconut Milk",
       "1 cup Water",
       "1 teaspoon Salt",
       "1 ripe Mango, diced",
       "1/4 Red Onion, finely chopped",
       "1/4 cup Fresh Cilantro, chopped",
       "1 tablespoon Lime Juice",
       "Salt and Pepper, to taste"],
     instructions := [
       "In a pot, combine rice, coconut milk, water, and salt. Bring to a boil, then reduce heat to low, cover, and simmer for 15-20 minutes until rice is cooked and liquid is absorbed.",
       "While the rice is cooking, prepare the mango salsa. In a bowl, combine diced mango, red onion, cilantro, lime juice, and season with salt and pepper to taste.",
       "Once the rice is done, fluff it with a fork and serve topped with mango salsa."] }),
  ("Peanut Butter Fried Rice",
   { yields := "4 Servings",
     prepTime := "10 minutes",
     cookTime := "15 minutes",
     ingredients := [
       "2 cups Cooked Rice (preferably day-old)",
       "2 tablespoons Peanut Butter",
       "2 tablespoons Soy Sauce",
       "1 tablespoon Sesame Oil",
       "1 cup Mixed Vegetables (carrots, peas, bell peppers)",
       "2 cloves Garlic, minced",
       "1/2 teaspoon Ginger, minced",
       "2 Green Onions, sliced",
       "Salt and Pepper, to taste"],
     instructions := [
       "In a small bowl, mix peanut butter, soy sauce, and sesame oil until well combined. Set aside.",
       "In a large pan or wok, heat a little oil over medium-high heat. Add garlic and ginger, and saut√© for 1-2 minutes until fragrant.",
       "Add the mixed vegetables and stir-fry for about 3-4 minutes until tender.",
       "Add the cooked rice and pour the peanut butter mixture over it. Stir well to combine and cook for an additional 3-4 minutes until heated through.",
       "Garnish with sliced green onions and serve."] }),
  ("Spiced Cauliflower Rice with Chickpeas",
   { yields := "4 Servings",
     prepTime := "15 minutes",
     cookTime := "20 minutes",
     ingredients := [
       "1 head Cauliflower, grated or processed into rice-sized pieces",
       "1 can (15 oz) Chickpeas, drained and rinsed",
       "1 tablespoon Olive Oil",
       "1 teaspoon Cumin",
       "1 teaspoon Coriander",
       "1/2 teaspoon Turmeric",
       "Salt and Pepper, to taste",
       "1/4 cup Fresh Parsley, chopped",
       "Juice of 1 Lemon"],
     instructions := [
       "In a large skillet, heat olive oil over medium heat. Add grated cauliflower and cook for 5-7 minutes until tender.",
       "Stir in the chickpeas, cumin, coriander, turmeric, salt, and pepper. Cook for another 5-7 minutes until heated through.",
       "Remove from heat and stir in fresh parsley and lemon juice before serving."] }),
  ("Saffron Rice with Roasted Chicken",
   { yields := "4 Servings",
     prepTime := "15 minutes",
     cookTime := "45 minutes",
     ingredients := [
       "1 1/2 cups Basmati Rice",
       "3 cups Chicken Broth",
       "1/4 teaspoon Saffron Threads",
       "1 tablespoon Olive Oil",
       "2 cloves Garlic, minced",
       "1 teaspoon Cumin",
       "Salt and Pepper, to taste",
       "4 Chicken Thighs (bone-in, skin-on)",
       "Fresh Cilantro, for garnish"],
     instructions := [
       "Preheat the oven to 425¬∞F (220¬∞C). In a small bowl, soak saffron threads in a few tablespoons of warm water for about 10 minutes.",
       "In an oven-safe pot, heat olive oil over medium heat. Add garlic and cumin, and saut√© for 1-2 minutes.",
       "Add rice, chicken broth, saffron (with soaking water), salt, and pepper. Bring to a boil, then reduce heat, cover, and simmer for 15 minutes.",
       "While the rice is cooking, season chicken thighs with salt and pepper. Place them skin-side up on a baking sheet and roast for 25-30 minutes until cooked through.",
       "Serve saffron rice topped with roasted chicken and garnish with fresh cilantro."] }),
  ("Mexican Rice with Black Beans",
   { yields := "4 Servings",
     prepTime := "10 minutes",
     cookTime := "20 minutes",
     ingredients := [
       "1 cup Rice (long grain or Basmati)",
       "1 can (15 oz) Black Beans, drained and rinsed",
       "1 cup Chicken or Vegetable Broth",
       "1 cup Diced Tomatoes (canned or fresh)",
       "1 teaspoon Cumin",
       "1 teaspoon Chili Powder",
       "Salt and Pepper, to taste",
       "1 tablespoon Olive Oil",
       "1/4 cup Fresh Cilantro, chopped",
       "Lime wedges for serving"],
     instructions := [
       "In a pot, heat olive oil over medium heat. Add rice and toast for 2-3 minutes until lightly golden.",
       "Stir in the broth, diced tomatoes, cumin, chili powder, salt, and pepper. Bring to a boil, then reduce heat, cover, and simmer for 15 minutes until rice is cooked.",
       "Stir in black beans and cook for an additional 2-3 minutes until heated through.",
       "Garnish with fresh cilantro and serve with lime wedges."] }),
  ("Mediterranean Rice with Feta and Olives",
   { yields := "4 Servings",
     prepTime := "10 minutes",
     cookTime := "20 minutes",
     ingredients := [
       "1 cup Rice (Basmati or Jasmine)",
       "2 cups Vegetable or Chicken Broth",
       "1/2 cup Feta Cheese, crumbled",
       "1/4 cup Kalamata Olives, pitted and sliced",
       "1/4 cup Cherry Tomatoes, halved",
       "1/4 cup Cucumber, diced",
       "1 tablespoon Olive Oil",
       "1 teaspoon Oregano",
       "Salt and Pepper, to taste"],
     instructions := [
       "In a pot, combine rice and broth. Bring to a boil, then reduce heat, cover, and simmer for 15 minutes until rice is cooked.",
       "In a large bowl, combine cooked rice with feta, olives, cherry tomatoes, cucumber, olive oil, oregano, salt, and pepper. Mix well.",
       "Serve warm or at room temperature."] }),
  ("Ginger Garlic Fried Rice",
   { yields := "4 Servings",
     prepTime := "10 minutes",
     cookTime := "10 minutes",
     ingredients := [
       "2 cups Cooked Rice (preferably day-old)",
       "2 tablespoons Oil (vegetable or sesame)",
       "3 cloves Garlic, minced",
       "1 tablespoon Ginger, minced",
       "1 cup Mixed Vegetables (peas, carrots, bell peppers)",
       "2 tablespoons Soy Sauce",
       "2 Green Onions, sliced",
       "Salt and Pepper, to taste"],
     instructions := [
       "Heat oil in a large skillet over medium-high heat. Add minced garlic and ginger, and saut√© for 1-2 minutes until fragrant.",
       "Add mixed vegetables and stir-fry for about 3-4 minutes until tender.",
       "Add the cooked rice and soy sauce. Stir well to combine and cook for an additional 3-4 minutes until heated through.",
       "Garnish with sliced green onions and serve."] }),
  ("Pumpkin Risotto",
   { yields := "4 Servings",
     prepTime := "10 minutes",
     cookTime := "30 minutes",
     ingredients := [
       "1 cup Arborio Rice",
       "4 cups Vegetable Broth (heated)",
       "1 cup Pumpkin Puree (canned or fresh)",
       "1/2 cup Onion, finely chopped",
       "2 cloves Garlic, minced",
       "1/2 cup Parmesan Cheese, grated",
       "2 tablespoons Olive Oil",
       "Salt and Pepper, to taste",
       "Fresh Sage or Parsley, for garnish"],
     instructions := [
       "In a large skillet, heat olive oil over medium heat. Add onion and garlic, and saut√© until soft and translucent.",
       "Add Arborio rice and stir for 1-2 minutes until the rice is lightly toasted.",
       "Gradually add warm vegetable broth, one ladle at a time, stirring constantly until absorbed before adding more.",
       "After about 15 minutes, stir in pumpkin puree. Continue adding broth and stirring until the rice is creamy and al dente, about 20-25 minutes.",
       "Remove from heat, stir in Parmesan cheese, and season with salt and pepper.",
       "Garnish with fresh sage or parsley before serving."] })]

/-- The names of the catalog entries, in order. -/
def recipeNames : List String := recipes.map Prod.fst

/-- `days_of_week` as listed in the source. -/
def days_of_week : List String := [
  "Monday", "Tuesday", "Wednesday", "Thursday", "Friday", "Saturday", "Sunday"]

/-- The fixed weekly schedule: one pair of recipe names per weekday. -/
def weekly_recipes : List (List String) := [
  ["Spicy Tomato Rice with Crispy Bread Crumbs",
   "Coconut Curry Rice with Toasted Almonds"],
  ["Lemon Herb Quinoa with Roasted Vegetables",
   "Garlicky Spinach and Mushroom Risotto"],
  ["Creamy Broccoli and Cheddar Rice Bake",
   "Turmeric Rice with Grilled Tofu"],
  ["Coconut Rice with Mango Salsa",
   "Peanut Butter Fried Rice"],
  ["Spiced Cauliflower Rice with Chickpeas",
   "Saffron Rice with Roasted Chicken"],
  ["Mexican Rice with Black Beans",
   "Mediterranean Rice with Feta and Olives"],
  ["Ginger Garlic Fried Rice",
   "Pumpkin Risotto"]]

/-- The schedule row `home_page` shows for day index `d`
(`weekly_recipes[day_index]`). -/
def recipes_for_today (d : Nat) : List String := weekly_recipes.getD d []

/-- The scheduled names of day `d` that fall into the missing-recipe
error branch of `home_page` (the names absent from the catalog). -/
def home_page_missing (d : Nat) : List String :=
  (recipes_for_today d).filter (fun n => !(recipeNames.contains n))

example : recipes.length = 14 := by decide

example : weekly_recipes.length = 7 := by decide

example : home_page_missing 0 = [] := by decide

/-! ## Helper lemmas -/

/-- On a shelf whose names are distinct, `addOrMerge` is: update the (single)
matching row in place when the name is present, append a fresh row otherwise. -/
theorem addOrMerge_eq_of_nodup (shelf : List ShelfItem) (n : String) (q : Nat) (e : Int)
    (h : (shelf.map ShelfItem.ingredient).Nodup) :
    addOrMerge shelf n q e =
      if shelf.any (fun it => it.ingredient == n) then
        shelf.map (fun it =>
          if it.ingredient == n then
            { it with quantity := it.quantity + q, expiry := some e }
          else it)
      else shelf ++ [⟨n, q, some e⟩] := by
  induction shelf with
  | nil => simp [addOrMerge]
  | cons it rest ih =>
    simp only [List.map_cons, List.nodup_cons] at h
    by_cases hit : it.ingredient = n
    · have hrest : ∀ x ∈ rest, x.ingredient ≠ n := by
        intro x hx hxn
        refine h.1 ?_
        rw [hit, ← hxn]
        exact List.mem_map_of_mem ShelfItem.ingredient hx
      have hmap : rest.map (fun x =>
          if x.ingredient = n then
            { x with quantity := x.quantity + q, expiry := some e }
          else x) = rest := by
        conv_rhs => rw [← List.map_id rest]
        refine List.map_congr_left (fun x hx => ?_)
        simp [hrest x hx]
      simp [addOrMerge, hit, hmap]
    · have hrec := ih h.2
      by_cases hany : rest.any (fun x => x.ingredient == n) = true
      · simp [addOrMerge, hit, hany] at hrec ⊢
        simp [hrec]
      · simp [addOrMerge, hit, hany] at hrec ⊢
        simp [hrec]

/-- Every name on the shelf after `addOrMerge` is either the added name or
a name that was already present. -/
theorem addOrMerge_names :
    ∀ (shelf : List ShelfItem) (n : String) (q : Nat) (e : Int)
      (m : String), m ∈ (addOrMerge shelf n q e).map ShelfItem.ingredient →
      m = n ∨ m ∈ shelf.map ShelfItem.ingredient
  | [], n, q, e, m => by simp [addOrMerge]
  | it :: rest, n, q, e, m => by
    by_cases hit : (it.ingredient == n) = true
    · rw [addOrMerge, if_pos hit]
      simp only [List.map_cons, List.mem_cons]
      rintro (rfl | hm)
      · exact Or.inr (Or.inl rfl)
      · exact Or.inr (Or.inr hm)
    · rw [addOrMerge, if_neg hit]
      simp only [List.map_cons, List.mem_cons]
      rintro (rfl | hm)
      · exact Or.inr (Or.inl rfl)
      · rcases addOrMerge_names rest n q e m hm with h | h
        · exact Or.inl h
        · exact Or.inr (Or.inr h)

/-- `addOrMerge` preserves distinctness of shelf names. -/
theorem addOrMerge_nodup (shelf : List ShelfItem) (n : String) (q : Nat) (e : Int)
    (h : (shelf.map ShelfItem.ingredient).Nodup) :
    ((addOrMerge shelf n q e).map ShelfItem.ingredient).Nodup := by
  rw [addOrMerge_eq_of_nodup shelf n q e h]
  by_cases hany : shelf.any (fun it => it.ingredient == n) = true
  · have hnames : (shelf.map (fun it =>
        if it.ingredient == n then
          { it with quantity := it.quantity + q, expiry := some e }
        else it)).map ShelfItem.ingredient = shelf.map ShelfItem.ingredient := by
      rw [List.map_map]
      refine List.map_congr_left (fun x _ => ?_)
      by_cases hx : (x.ingredient == n) = true <;> simp only [Function.comp_apply]
      · rw [if_pos hx]
      · rw [if_neg hx]
    rw [if_pos hany, hnames]
    exact h
  · rw [if_neg hany]
    simp only [List.any_eq_true, beq_iff_eq, not_exists, not_and] at hany
    rw [List.map_append, List.nodup_append]
    refine ⟨h, List.nodup_singleton n, ?_⟩
    intro m hm hmn
    simp only [List.map_cons, List.map_nil, List.mem_singleton] at hmn
    rcases List.mem_map.mp hm with ⟨x, hx, rfl⟩
    exact hany x hx hmn

/-- Low-quantity membership in the flag list of one row. -/
theorem itemFlags_low (today : Int) (q : Nat) (e : Int) :
    ShelfFlag.LowQuantity ∈ itemFlags today q e ↔ q < 2 := by
  unfold itemFlags
  split_ifs <;> simp_all

/-- Expired membership in the flag list of one row. -/
theorem itemFlags_expired (today : Int) (q : Nat) (e : Int) :
    ShelfFlag.Expired ∈ itemFlags today q e ↔ e < today := by
  unfold itemFlags
  split_ifs <;> simp_all

/-- Expiring-soon membership in the flag list of one row. -/
theorem itemFlags_soon (today : Int) (q : Nat) (e : Int) :
    ShelfFlag.ExpiringSoon ∈ itemFlags today q e ↔ (today ≤ e ∧ e ≤ today + 2) := by
  unfold itemFlags
  split_ifs <;> simp_all

/-- A row is flagged Expired or ExpiringSoon, never both. -/
theorem itemFlags_excl (today : Int) (q : Nat) (e : Int) :
    (itemFlags today q e).count ShelfFlag.Expired +
      (itemFlags today q e).count ShelfFlag.ExpiringSoon ≤ 1 := by
  unfold itemFlags
  split_ifs <;> decide

/-- The defaulted row keeps its quantity. -/
theorem withDefaultExpiry_quantity (today : Int) (it : ShelfItem) :
    (withDefaultExpiry today it).quantity = it.quantity := by
  cases h : it.expiry <;> simp [withDefaultExpiry, h]

/-- The defaulted row carries `today + 7` when the expiry was absent and
the original expiry otherwise. -/
theorem withDefaultExpiry_expiry (today : Int) (it : ShelfItem) :
    (withDefaultExpiry today it).expiry = some (it.expiry.getD (today + 7)) := by
  cases h : it.expiry <;> simp [withDefaultExpiry, h]

/-- The shelf-page flags of a row are the one-row flags at its quantity
and defaulted expiry. -/
theorem shelfPageFlags_eq (today : Int) (it : ShelfItem) :
    shelfPageFlags today it = itemFlags today it.quantity (it.expiry.getD (today + 7)) := by
  have h1 := withDefaultExpiry_quantity today it
  have h2 := withDefaultExpiry_expiry today it
  simp [shelfPageFlags, h1, h2]

/-- The generation loop returns one recipe per iteration. -/
theorem generate_multiple_recipes_length {σ : Type} (gen : σ → String × σ) :
    ∀ (n : Nat) (s : σ), (generate_multiple_recipes gen n s).1.length = n
  | 0, s => rfl
  | Nat.succ k, s => by
    simp [generate_multiple_recipes, generate_multiple_recipes_length gen k]

/-- Against a call-counting stub, the generation loop returns the tags of
`n` consecutive counter values and advances the counter by `n`. -/
theorem generate_multiple_recipes_counter (tag : Nat → String) :
    ∀ (n c0 : Nat), generate_multiple_recipes (fun c => (tag c, c + 1)) n c0 =
      ((List.range' c0 n).map tag, c0 + n)
  | 0, c0 => by simp [generate_multiple_recipes]
  | Nat.succ k, c0 => by
    rw [generate_multiple_recipes]
    simp only [generate_multiple_recipes_counter tag k (c0 + 1), List.range'_succ,
      List.map_cons]
    refine Prod.ext rfl ?_
    simp
    omega

/-- The dietary clause is empty exactly for the `"None"` preference. -/
theorem diet_instruction_empty_iff (diet_preference : String) :
    diet_instruction diet_preference = "" ↔ diet_preference = "None" := by
  unfold diet_instruction
  by_cases h : diet_preference = "None"
  · simp [h]
  · simp only [h, bne_iff_ne, ne_eq, not_false_eq_true, if_true, iff_false]
    intro habs
    have hlen := congrArg String.length habs
    simp [String.length_append] at hlen
    exact absurd hlen.2 (by decide)

/-- The cuisine clause is empty exactly for the `"Any"` preference. -/
theorem cuisine_instruction_empty_iff (cuisine_preference : String) :
    cuisine_instruction cuisine_preference = "" ↔ cuisine_preference = "Any" := by
  unfold cuisine_instruction
  by_cases h : cuisine_preference = "Any"
  · simp [h]
  · simp only [h, bne_iff_ne, ne_eq, not_false_eq_true, if_true, iff_false]
    intro habs
    have hlen := congrArg String.length habs
    simp [String.length_append] at hlen
    exact absurd hlen.2 (by decide)

/-- The defaulting pass never changes a row's ingredient name. -/
theorem withDefaultExpiry_ingredient (today : Int) (it : ShelfItem) :
    (withDefaultExpiry today it).ingredient = it.ingredient := by
  cases h : it.expiry <;> simp [withDefaultExpiry, h]

/-- Every row produced by `addOrMerge` is the freshly added row, an
untouched original row, or an original row with only its quantity
increased by the added quantity and its expiry replaced. -/
theorem addOrMerge_rows :
    ∀ (shelf : List ShelfItem) (n : String) (q : Nat) (e : Int)
      (r : ShelfItem), r ∈ addOrMerge shelf n q e →
      r = ⟨n, q, some e⟩ ∨ r ∈ shelf ∨
        ∃ it ∈ shelf, r.ingredient = it.ingredient ∧ r.quantity = it.quantity + q ∧
          r.expiry = some e
  | [], n, q, e, r => by simp [addOrMerge]
  | it :: rest, n, q, e, r => by
    by_cases hit : (it.ingredient == n) = true
    · rw [addOrMerge, if_pos hit]
      simp only [List.mem_cons]
      rintro (rfl | hr)
      · exact Or.inr (Or.inr ⟨it, Or.inl rfl, rfl, rfl, rfl⟩)
      · exact Or.inr (Or.inl (Or.inr hr))
    · rw [addOrMerge, if_neg hit]
      simp only [List.mem_cons]
      rintro (rfl | hr)
      · exact Or.inr (Or.inl (Or.inl rfl))
      · rcases addOrMerge_rows rest n q e r hr with h | h | ⟨x, hx, h1, h2, h3⟩
        · exact Or.inl h
        · exact Or.inr (Or.inl (Or.inr h))
        · exact Or.inr (Or.inr ⟨x, Or.inr hx, h1, h2, h3⟩)

/-! ## Claim theorems -/

/-- Claim C1: on a shelf with at most one row per exact ingredient name,
adding `(n, q, e)` updates the existing row for `n` in place (quantity
increased by `q`, expiry replaced by `e`, no new row) when one exists and
appends a fresh row otherwise; the at-most-one-row-per-name invariant is
preserved, and adding Salt quantity 3 then 2 to a shelf whose Salt
quantity is 0 leaves exactly one Salt row with quantity 5 and the last
expiry. -/
theorem addOrMerge_spec (shelf : List ShelfItem) (n : String) (q : Nat) (e : Int)
    (h : (shelf.map ShelfItem.ingredient).Nodup) :
    (addOrMerge shelf n q e =
      if shelf.any (fun it => it.ingredient == n) then
        shelf.map (fun it =>
          if it.ingredient == n then
            { it with quantity := it.quantity + q, expiry := some e }
          else it)
      else shelf ++ [⟨n, q, some e⟩]) ∧
    ((addOrMerge shelf n q e).map ShelfItem.ingredient).Nodup ∧
    (∀ d1 d2 : Int,
      addOrMerge (addOrMerge [⟨("Salt"), 0, none⟩] ("Salt") 3 d1) ("Salt") 2 d2 =
        [⟨("Salt"), 5, some d2⟩]) :=
  ⟨addOrMerge_eq_of_nodup shelf n q e h, addOrMerge_nodup shelf n q e h,
   fun _ _ => rfl⟩

/-- Claim C1 witness: the merge behaviour and the invariant at the seeded
shelf, whose names are distinct. -/
theorem addOrMerge_spec_witness :
    ((addOrMerge init_shelf ("Salt") 3 11).map ShelfItem.ingredient).Nodup ∧
    addOrMerge (addOrMerge [⟨("Salt"), 0, none⟩] ("Salt") 3 5) ("Salt") 2 9 =
      [⟨("Salt"), 5, some 9⟩] :=
  ⟨(addOrMerge_spec init_shelf ("Salt") 3 11 (by decide)).2.1,
   (addOrMerge_spec init_shelf ("Salt") 3 11 (by decide)).2.2 5 9⟩

/-- Claim C2: the shelf-page flags of a row, for any date `today`: a
missing expiry is first defaulted to `today + 7`; LowQuantity is emitted
exactly when the quantity is below 2; Expired exactly when the (defaulted)
expiry is before `today`; ExpiringSoon exactly when the expiry lies in
`[today, today + 2]`; Expired and ExpiringSoon never occur together. -/
theorem shelfPageFlags_spec (today : Int) (it : ShelfItem) :
    (withDefaultExpiry today it).expiry = some (it.expiry.getD (today + 7)) ∧
    (ShelfFlag.LowQuantity ∈ shelfPageFlags today it ↔ it.quantity < 2) ∧
    (ShelfFlag.Expired ∈ shelfPageFlags today it ↔ it.expiry.getD (today + 7) < today) ∧
    (ShelfFlag.ExpiringSoon ∈ shelfPageFlags today it ↔
      (today ≤ it.expiry.getD (today + 7) ∧ it.expiry.getD (today + 7) ≤ today + 2)) ∧
    (shelfPageFlags today it).count ShelfFlag.Expired +
      (shelfPageFlags today it).count ShelfFlag.ExpiringSoon ≤ 1 := by
  rw [shelfPageFlags_eq]
  exact ⟨withDefaultExpiry_expiry today it,
    itemFlags_low today it.quantity (it.expiry.getD (today + 7)),
    itemFlags_expired today it.quantity (it.expiry.getD (today + 7)),
    itemFlags_soon today it.quantity (it.expiry.getD (today + 7)),
    itemFlags_excl today it.quantity (it.expiry.getD (today + 7))⟩

/-- Claim C3: consumption after recipe generation keeps exactly the rows
whose name is not among the selected names, in their original relative
order; consuming Salt and Pepper from a Salt/Pepper/Garlic shelf leaves
only Garlic. -/
theorem consume_spec (shelf : List ShelfItem) (names : List String) :
    List.Sublist (consume shelf names) shelf ∧
    (∀ it, it ∈ consume shelf names ↔
      (it ∈ shelf ∧ names.contains it.ingredient = false)) ∧
    (∀ d1 d2 d3 : Int,
      consume [⟨("Salt"), 1, some d1⟩, ⟨("Pepper"), 1, some d2⟩, ⟨("Garlic"), 1, some d3⟩]
          [("Salt"), ("Pepper")] =
        [⟨("Garlic"), 1, some d3⟩]) := by
  refine ⟨List.filter_sublist shelf, fun it => ?_, fun _ _ _ => rfl⟩
  rw [consume, List.mem_filter]
  simp

/-- Claim C4: `is_duplicate` answers true exactly when the content hash of
the candidate's encoded bytes equals that of some gallery image; images
with identical encoded bytes are recognised as duplicates, and — the hash
being collision-free, the spec's "collision probability negligible"
idealisation — images with differing encoded bytes never are. -/
theorem is_duplicate_spec {Img H : Type} [DecidableEq H] (md5 : List Nat → H)
    (image_to_bytes : Img → List Nat) (hinj : Function.Injective md5) :
    (∀ (cand : Img) (existing : List Img),
      is_duplicate md5 image_to_bytes cand existing = true ↔
        ∃ img ∈ existing,
          image_hash md5 image_to_bytes img = image_hash md5 image_to_bytes cand) ∧
    (∀ A B : Img, image_to_bytes A = image_to_bytes B →
      is_duplicate md5 image_to_bytes B [A] = true) ∧
    (∀ A B : Img, image_to_bytes A ≠ image_to_bytes B →
      is_duplicate md5 image_to_bytes B [A] = false) := by
  refine ⟨fun cand existing => ?_, fun A B hAB => ?_, fun A B hAB => ?_⟩
  · simp [is_duplicate, List.any_eq_true]
  · simp [is_duplicate, image_hash, hAB]
  · simp only [is_duplicate, image_hash, List.any_cons, List.any_nil, Bool.or_false,
      decide_eq_false_iff_not]
    exact fun hmd5 => hAB (hinj hmd5)

/-- Claim C4 witness: byte-identical images are duplicates and
byte-distinct images are not, at the identity hash on byte lists. -/
theorem is_duplicate_spec_witness :
    is_duplicate (H := List Nat) id id [1, 2] [[1, 2]] = true ∧
    is_duplicate (H := List Nat) id id [3] [[1, 2]] = false :=
  ⟨(is_duplicate_spec id id (fun _ _ hab => hab)).2.1 [1, 2] [1, 2] rfl,
   (is_duplicate_spec id id (fun _ _ hab => hab)).2.2 [1, 2] [3] (by decide)⟩

/-- Claim C5 counterexample: the static catalog does not have 10 entries. -/
theorem recipes_count_ne_ten : (recipes.length == 10) = false := by decide

/-- Claim C5 (amended): the static catalog has exactly 14 distinct
recipe-name entries, and the weekly schedule is a fixed 7-element list
whose rows each hold exactly two recipe names drawn from the catalog. -/
theorem catalog_schedule_spec :
    recipes.length = 14 ∧
    List.Nodup recipeNames ∧
    weekly_recipes.length = 7 ∧
    weekly_recipes.all
      (fun p => p.length == 2 && p.all (fun n => recipeNames.contains n)) = true := by
  refine ⟨by decide, by decide, by decide, by decide⟩

/-- Claim C6 counterexample: two parts of the claim fail on the code.
The freshly initialised shelf is not empty — `init_session_state` seeds
it with four pantry rows — and rows are not mutated only by adds and
consumption: the shelf page's defaulting pass mutates a row without an
`Expiry` key in place, assigning it `today + 7`. -/
theorem init_shelf_and_default_mutation :
    (decide (init_shelf = []) = false) ∧ init_shelf.length = 4 ∧
    (decide (withDefaultExpiry 0 ⟨("Salt"), 0, none⟩ = ⟨("Salt"), 0, none⟩) = false) ∧
    withDefaultExpiry 0 ⟨("Salt"), 0, none⟩ = ⟨("Salt"), 0, some 7⟩ := by decide

/-- Claim C6 (amended): a fresh session's shelf holds exactly the four
seeded pantry rows (Salt, Pepper, Olive Oil, Garlic, each quantity 0, no
expiry), not zero items; rows are created only by the explicit add —
every row after an add is the freshly added row, an untouched original
row, or an original row with only its quantity increased by the added
quantity and its expiry replaced, and no name beyond the added one
appears; rows are mutated also by the shelf page's expiry-defaulting
pass, which only assigns the default expiry and never touches name or
quantity; rows disappear only through consumption, explicit removal
(both sublists of the shelf) or the clear action (which empties it). -/
theorem shelf_lifecycle_spec :
    init_shelf = [⟨("Salt"), 0, none⟩, ⟨("Pepper"), 0, none⟩,
      ⟨("Olive Oil"), 0, none⟩, ⟨("Garlic"), 0, none⟩] ∧
    clear_shelf = [] ∧
    (∀ (shelf : List ShelfItem) (names : List String),
      List.Sublist (consume shelf names) shelf) ∧
    (∀ (shelf : List ShelfItem) (name : String),
      List.Sublist (removeIngredient shelf name) shelf) ∧
    (∀ (shelf : List ShelfItem) (n : String) (q : Nat) (e : Int),
      ((addOrMerge shelf n q e).map ShelfItem.ingredient).all
        (fun m => m == n || (shelf.map ShelfItem.ingredient).contains m) = true) ∧
    (∀ (shelf : List ShelfItem) (n : String) (q : Nat) (e : Int),
      (addOrMerge shelf n q e).all (fun r =>
        r == ⟨n, q, some e⟩ || shelf.contains r ||
          shelf.any (fun it => r.ingredient == it.ingredient &&
            r.quantity == it.quantity + q && r.expiry == some e)) = true) ∧
    (∀ (today : Int) (it : ShelfItem),
      (withDefaultExpiry today it).ingredient = it.ingredient ∧
      (withDefaultExpiry today it).quantity = it.quantity ∧
      (withDefaultExpiry today it).expiry = some (it.expiry.getD (today + 7))) := by
  refine ⟨rfl, rfl, fun shelf names => List.filter_sublist shelf,
    fun shelf name => List.filter_sublist shelf, fun shelf n q e => ?_,
    fun shelf n q e => ?_,
    fun today it => ⟨withDefaultExpiry_ingredient today it,
      withDefaultExpiry_quantity today it, withDefaultExpiry_expiry today it⟩⟩
  · rw [List.all_eq_true]
    intro m hm
    rcases addOrMerge_names shelf n q e m hm with hmn | hmem
    · simp [hmn]
    · simp [hmem]
  · rw [List.all_eq_true]
    intro r hr
    rcases addOrMerge_rows shelf n q e r hr with hnew | horig | ⟨x, hx, h1, h2, h3⟩
    · simp [hnew]
    · simp [horig]
    · simp only [Bool.or_eq_true]
      refine Or.inr ?_
      rw [List.any_eq_true]
      exact ⟨x, hx, by simp [h1, h2, h3]⟩

/-- Claim C7: whenever the external text-generation call fails,
`generate_recipe` returns exactly the fixed fallback string together with
the user-visible error report; the function is total, so no exception
propagates. -/
theorem generate_recipe_fallback (call : String → Except String String)
    (items : List String) (diet_preference cuisine_preference : String) (e : String)
    (h : call (recipe_prompt items diet_preference cuisine_preference) = Except.error e) :
    generate_recipe call items diet_preference cuisine_preference =
      (fallback_recipe, ["An error occurred while generating the recipe: " ++ e]) ∧
    fallback_recipe = "Unable to generate recipe. Please try again." :=
  ⟨by simp [generate_recipe, h], rfl⟩

/-- Claim C7 witness: a concrete failing call yields the fallback pair. -/
theorem generate_recipe_fallback_witness :
    generate_recipe (fun _ => Except.error ("boom")) [("Rice")] ("None") ("Any") =
      (fallback_recipe, ["An error occurred while generating the recipe: " ++ "boom"]) ∧
    fallback_recipe = "Unable to generate recipe. Please try again." :=
  generate_recipe_fallback (fun _ => Except.error ("boom")) [("Rice")] ("None") ("Any")
    ("boom") rfl

/-- Claim C8: for a recipe count between 1 and 5, the generation loop
returns exactly that many elements; against a call-counting stub the
outputs are the tags of `count` consecutive counter values, in call
order, and the counter advances by `count` — `count` distinct
invocations with no state shared between them. -/
theorem generate_multiple_recipes_spec {σ : Type} (gen : σ → String × σ) (s : σ)
    (n : Nat) (h : 1 ≤ n ∧ n ≤ 5) :
    (generate_multiple_recipes gen n s).1.length = n ∧
    (∀ (tag : Nat → String) (c0 : Nat),
      (generate_multiple_recipes (fun c => (tag c, c + 1)) n c0).1 =
        (List.range' c0 n).map tag ∧
      (generate_multiple_recipes (fun c => (tag c, c + 1)) n c0).2 = c0 + n) := by
  refine ⟨generate_multiple_recipes_length gen n s, fun tag c0 => ?_⟩
  rw [generate_multiple_recipes_counter tag n c0]
  exact ⟨rfl, rfl⟩

/-- Claim C8 witness: three recipes from a call-counting stub are the
three consecutive tags. -/
theorem generate_multiple_recipes_spec_witness :
    (generate_multiple_recipes (fun c : Nat => (toString c, c + 1)) 3 0).1 =
      (List.range' 0 3).map toString ∧
    (generate_multiple_recipes (fun c : Nat => (toString c, c + 1)) 3 0).2 = 0 + 3 :=
  (generate_multiple_recipes_spec (fun c : Nat => (toString c, c + 1)) 0 3
    (by decide)).2 toString 0

/-- Claim C9: the prompt is the fixed template around the comma-joined
ingredient list, with the dietary clause empty exactly when the diet is
"None" and the cuisine clause empty exactly when the cuisine is "Any";
being a function of the three inputs, construction is deterministic. -/
theorem recipe_prompt_spec (items : List String)
    (diet_preference cuisine_preference : String) :
    recipe_prompt items diet_preference cuisine_preference =
      "Create a recipe using these ingredients: " ++ String.intercalate (", ") items ++
        ". " ++ diet_instruction diet_preference ++ " " ++
        cuisine_instruction cuisine_preference ++
        " Provide the recipe name, ingredients with quantities, and step-by-step instructions." ∧
    (diet_instruction diet_preference = "" ↔ diet_preference = "None") ∧
    (cuisine_instruction cuisine_preference = "" ↔ cuisine_preference = "Any") :=
  ⟨rfl, diet_instruction_empty_iff diet_preference,
   cuisine_instruction_empty_iff cuisine_preference⟩

/-- Claim C10: for every weekday index, every scheduled recipe name is a
key of the shipped catalog, so the missing-recipe error branch of the
home page is unreachable on the shipped data. -/
theorem weekly_schedule_total : ∀ d : Fin 7, home_page_missing d.val = [] := by decide
